import Mathlib

/-!
Verification development for SpotyPod2 (`src/spotypod.py`).

The development shallowly embeds the reconciliation core of the program:
the metadata reader `get_file_metadata`, the match predicate and the
first-match scan inside `generate_m3u_playlist`, the display-value
reconciliation, the M3U document emission, and the skip-download branch of
`process_playlist`.  Diagnostics printed by the program are modelled as an
explicit list of `Diag` events.
-/

/-- One row of the Exportify CSV: `PlaylistItem` in the source. -/
structure PlaylistItem where
  track_name : String
  artist : String
  album : String
deriving DecidableEq, Repr

/-- The ID3 tag triple read from an audio file. -/
structure Tags where
  title : String
  artist : String
  album : String
deriving DecidableEq, Repr

/-- A file in the playlist directory.  `stem` is the file name without its
extension, `name` the full file name, `abspath` the absolute path string.
`tags` is `some t` when the ID3 read succeeds with triple `t`, and `none`
when reading the tags raises (missing or corrupt header). -/
structure DFile where
  stem : String
  name : String
  abspath : String
  tags : Option Tags
deriving DecidableEq, Repr

/-- Checks that `hay` begins with `needle`, over character lists. -/
def leadMatch : List Char → List Char → Bool
  | [], _ => true
  | _ :: _, [] => false
  | a :: as, b :: bs => a == b && leadMatch as bs

/-- Occurrence of `needle` as a contiguous run inside `hay`, over
character lists. -/
def containsChars (hay needle : List Char) : Bool :=
  match hay with
  | [] => needle.isEmpty
  | _ :: rest => leadMatch needle hay || containsChars rest needle

/-- Python substring test: `strContains hay needle` is `needle in hay`.
The empty string is a substring of everything. -/
def strContains (hay needle : String) : Bool :=
  containsChars hay.data needle.data

/-- Python `str.lower()` (ASCII case mapping). -/
def pyLower (s : String) : String :=
  String.mk (s.data.map Char.toLower)

/-- Tests whether the name `s` ends with `suffixStr`, over character
lists. -/
def endsWithStr (s suffixStr : String) : Bool :=
  leadMatch suffixStr.data.reverse s.data.reverse

/-- Embeds `get_file_metadata` (src/spotypod.py lines 111-130): tag-read
failure is caught and converted to the all-empty triple. -/
def get_file_metadata (f : DFile) : Tags :=
  match f.tags with
  | some t => t
  | none => { title := "", artist := "", album := "" }

/-- Embeds `title_match` (lines 166-167): `item.track_name.lower() in
metadata['title'].lower() or metadata['title'].lower() in
item.track_name.lower()`. -/
def title_match (item : PlaylistItem) (md : Tags) : Bool :=
  strContains (pyLower md.title) (pyLower item.track_name) ||
    strContains (pyLower item.track_name) (pyLower md.title)

/-- Embeds `artist_match` (lines 168-169). -/
def artist_match (item : PlaylistItem) (md : Tags) : Bool :=
  strContains (pyLower md.artist) (pyLower item.artist) ||
    strContains (pyLower item.artist) (pyLower md.artist)

/-- Embeds `filename_match` (lines 172-173): the stem must contain both
the expected track name and the expected artist, case-insensitively. -/
def filename_match (item : PlaylistItem) (f : DFile) : Bool :=
  strContains (pyLower f.stem) (pyLower item.track_name) &&
    strContains (pyLower f.stem) (pyLower item.artist)

/-- The full match predicate of line 175:
`(title_match and artist_match) or filename_match`. -/
def matchesItem (item : PlaylistItem) (f : DFile) : Bool :=
  let md := get_file_metadata f
  (title_match item md && artist_match item md) || filename_match item f

/-- Embeds the inner scan of lines 159-177: walk the candidate list in
order, return the first candidate satisfying the predicate (the loop sets
`matched_file` and breaks), `none` when no candidate satisfies it. -/
def findMatch (item : PlaylistItem) : List DFile → Option DFile
  | [] => none
  | f :: rest => if matchesItem item f then some f else findMatch item rest

/-- Python string `or`: `pyOr a b` is `a or b`, yielding `b` exactly when
`a` is the empty (falsy) string. -/
def pyOr (a b : String) : String :=
  if a = "" then b else a

/-- Display title of line 185: `metadata['title'] or item.track_name`. -/
def displayTitle (item : PlaylistItem) (f : DFile) : String :=
  pyOr (get_file_metadata f).title item.track_name

/-- Display artist of line 186: `metadata['artist'] or item.artist`. -/
def displayArtist (item : PlaylistItem) (f : DFile) : String :=
  pyOr (get_file_metadata f).artist item.artist

/-- The two lines written for a matched pair (lines 189-190): the EXTINF
info line and the absolute path. -/
def entryLines (item : PlaylistItem) (f : DFile) : List String :=
  ["#EXTINF:-1," ++ displayArtist item f ++ " - " ++ displayTitle item f,
   f.abspath]

/-- Diagnostics printed by `generate_m3u_playlist`, modelled as events. -/
inductive Diag where
  | titleMismatch (csvName fileTitle : String)
  | artistMismatch (csvArtist fileArtist : String)
  | unmatched (item : PlaylistItem)
deriving DecidableEq, Repr

/-- Mismatch diagnostics of lines 192-196: each fires only when the tag
value is non-empty (truthy) and differs case-insensitively from the CSV
value. -/
def matchDiags (item : PlaylistItem) (f : DFile) : List Diag :=
  let md := get_file_metadata f
  (if md.title ≠ "" ∧ pyLower md.title ≠ pyLower item.track_name then
      [Diag.titleMismatch item.track_name md.title] else []) ++
  (if md.artist ≠ "" ∧ pyLower md.artist ≠ pyLower item.artist then
      [Diag.artistMismatch item.artist md.artist] else [])

/-- Body of one iteration of the outer loop (lines 158-198): match the
item, and either emit its two document lines with the mismatch
diagnostics, or emit nothing and log the unmatched warning. -/
def processItem (files : List DFile) (item : PlaylistItem) :
    List String × List Diag :=
  match findMatch item files with
  | some f => (entryLines item f, matchDiags item f)
  | none => ([], [Diag.unmatched item])

/-- The outer loop over all playlist items, accumulating document lines
and diagnostics in order. -/
def genBody (files : List DFile) : List PlaylistItem → List String × List Diag
  | [] => ([], [])
  | item :: rest =>
    let this := processItem files item
    let tail := genBody files rest
    (this.1 ++ tail.1, this.2 ++ tail.2)

/-- Candidate enumeration of line 148: `playlist_dir.glob("*.mp3")` keeps
exactly the directory entries whose name ends in `.mp3`. -/
def candidates (dirFiles : List DFile) : List DFile :=
  dirFiles.filter (fun f => endsWithStr f.name ".mp3")

/-- Embeds `generate_m3u_playlist` (lines 132-201): write the `#EXTM3U`
header, then process every playlist item in order against the `*.mp3`
candidates.  Returns the document lines and the diagnostics. -/
def generate_m3u_playlist (items : List PlaylistItem) (dirFiles : List DFile) :
    List String × List Diag :=
  let body := genBody (candidates dirFiles) items
  ("#EXTM3U" :: body.1, body.2)

/-- Errors `process_playlist` can raise.  The source only ever raises
`ValueError` (line 226). -/
inductive PyError where
  | valueError (msg : String)
deriving DecidableEq, Repr

/-- Python class name of a raised error. -/
def PyError.className : PyError → String
  | .valueError _ => "ValueError"

/-- Embeds the acquisition-and-reconciliation flow of `process_playlist`
(lines 203-231) after the CSV has been read.  `dirExists` says whether
the per-playlist directory exists, `dirFiles` is its listing.  When
`download` is false and the directory is absent, the source raises
`ValueError("Playlist directory not found: ...")` before any document is
written; otherwise it generates the M3U document. -/
def process_playlist (dirExists : Bool) (dirFiles : List DFile)
    (items : List PlaylistItem) (download : Bool) :
    Except PyError (List String × List Diag) :=
  if download then
    Except.ok (generate_m3u_playlist items dirFiles)
  else if dirExists then
    Except.ok (generate_m3u_playlist items dirFiles)
  else
    Except.error (PyError.valueError "Playlist directory not found")

/-! ### Spec-side predicate for the refinement claim -/

/-- Case-insensitive, either-direction substring relation between two
strings, as the spec phrases the tag comparison. -/
def ciEitherSub (a b : String) : Bool :=
  strContains (pyLower a) (pyLower b) || strContains (pyLower b) (pyLower a)

/-- Match predicate transcribed from the spec's words: tag title and
expected name substrings of each other AND tag artist and expected artist
substrings of each other, OR the stem contains both the expected name and
the expected artist, all case-insensitively. -/
def specMatchPredicate (item : PlaylistItem) (f : DFile) : Bool :=
  let md := get_file_metadata f
  (ciEitherSub md.title item.track_name && ciEitherSub md.artist item.artist) ||
    (strContains (pyLower f.stem) (pyLower item.track_name) &&
      strContains (pyLower f.stem) (pyLower item.artist))

/-! ### Helper lemmas -/

theorem containsChars_nil_right (l : List Char) : containsChars l [] = true := by
  cases l <;> simp [containsChars, leadMatch]

theorem strContains_empty_right (s : String) : strContains s "" = true := by
  have h : ("" : String).data = [] := rfl
  simp [strContains, h, containsChars_nil_right]

theorem pyLower_empty : pyLower "" = "" := rfl

theorem title_match_of_empty (item : PlaylistItem) (md : Tags)
    (h : md.title = "") : title_match item md = true := by
  simp [title_match, h, pyLower_empty, strContains_empty_right]

theorem artist_match_of_empty (item : PlaylistItem) (md : Tags)
    (h : md.artist = "") : artist_match item md = true := by
  simp [artist_match, h, pyLower_empty, strContains_empty_right]

theorem findMatch_eq_findq (item : PlaylistItem) (files : List DFile) :
    findMatch item files = files.find? (matchesItem item) := by
  induction files with
  | nil => rfl
  | cons f rest ih =>
    by_cases h : matchesItem item f = true
    · simp [findMatch, h]
    · simp only [Bool.not_eq_true] at h
      simp [findMatch, h, ih]

theorem processItem_fst (files : List DFile) (item : PlaylistItem) :
    (processItem files item).1 =
      (findMatch item files).elim [] (entryLines item) := by
  cases h : findMatch item files <;> simp [processItem, h]

theorem processItem_snd (files : List DFile) (item : PlaylistItem) :
    (processItem files item).2 =
      (findMatch item files).elim [Diag.unmatched item] (matchDiags item) := by
  cases h : findMatch item files <;> simp [processItem, h]

theorem genBody_eq (files : List DFile) (items : List PlaylistItem) :
    genBody files items =
      ((items.map (fun item => (processItem files item).1)).flatten,
       (items.map (fun item => (processItem files item).2)).flatten) := by
  induction items with
  | nil => rfl
  | cons item rest ih => simp [genBody, ih]

/-! ### Concrete fixtures used by witnesses and counterexamples -/

def itemY : PlaylistItem := ⟨"Yesterday", "The Beatles", "Help!"⟩

def fY : DFile :=
  ⟨"The Beatles - Yesterday", "The Beatles - Yesterday.mp3",
   "/o/The Beatles - Yesterday.mp3",
   some ⟨"Yesterday (Remastered)", "The Beatles", "Help!"⟩⟩

def itemC6 : PlaylistItem := ⟨"Yesterday", "X", "A"⟩

def fC6 : DFile := ⟨"zz", "zz.mp3", "/zz.mp3", some ⟨"", "x", ""⟩⟩

def itemW : PlaylistItem := ⟨"yes", "art", "al"⟩

def fBad : DFile := ⟨"zz", "zz.mp3", "/zz.mp3", some ⟨"q", "w", "e"⟩⟩

def fGood : DFile := ⟨"art - yes", "art - yes.mp3", "/g.mp3", some ⟨"", "", ""⟩⟩

def fLater : DFile :=
  ⟨"art - yes (2)", "art - yes (2).mp3", "/h.mp3", some ⟨"", "", ""⟩⟩

def tN1 : PlaylistItem := ⟨"yes", "art", "a"⟩

def tN2 : PlaylistItem := ⟨"es", "rt", "b"⟩

def fN : DFile := ⟨"art - yes", "art - yes.mp3", "/n.mp3", some ⟨"", "", ""⟩⟩

def fFlac : DFile := ⟨"song", "song.flac", "/song.flac", some ⟨"", "", ""⟩⟩

def item1 : PlaylistItem := ⟨"Csv", "CsvArt", "A"⟩

def f1 : DFile := ⟨"s", "s.mp3", "/s.mp3", some ⟨"TagTitle", "", ""⟩⟩

/-! ### Claim theorems -/

/-- C1: for every expected track and candidate file, the match predicate
of the code holds exactly when the spec's predicate does: either the tag
title and the expected name are case-insensitive substrings of each other
in either direction and likewise tag artist and expected artist, or the
stem case-insensitively contains both the expected name and the expected
artist. -/
theorem matchesItem_eq_spec (item : PlaylistItem) (f : DFile) :
    matchesItem item f = specMatchPredicate item f := rfl

/-- C2: the matcher returns the first candidate in enumeration order that
satisfies the match predicate — a candidate is returned exactly when it
matches and every earlier candidate fails — and returns none exactly when
no candidate satisfies the predicate, so candidates after the first
satisfying one are never selected. -/
theorem findMatch_first (item : PlaylistItem) (files : List DFile) :
    (∀ f : DFile, findMatch item files = some f ↔
        (matchesItem item f = true ∧
          ∃ pre post, files = pre ++ f :: post ∧
            ∀ g ∈ pre, matchesItem item g = false)) ∧
    (findMatch item files = none ↔
      ∀ g ∈ files, matchesItem item g = false) := by
  constructor
  · intro f
    rw [findMatch_eq_findq, List.find?_eq_some]
    simp
  · rw [findMatch_eq_findq, List.find?_eq_none]
    simp

theorem findMatch_first_witness :
    findMatch itemW [fBad, fGood, fLater] = some fGood :=
  ((findMatch_first itemW [fBad, fGood, fLater]).1 fGood).2
    ⟨by decide, [fBad], [fLater], rfl, by decide⟩

/-- C3: the document is the fixed header line followed by exactly one
EXTINF/path block per matched track in the original input order; an
unmatched track contributes no lines at all and only an unmatched
diagnostic. -/
theorem generate_structure (items : List PlaylistItem) (dirFiles : List DFile) :
    generate_m3u_playlist items dirFiles =
      ("#EXTM3U" :: (items.map (fun item =>
          (findMatch item (candidates dirFiles)).elim [] (entryLines item))).flatten,
       (items.map (fun item =>
          (findMatch item (candidates dirFiles)).elim [Diag.unmatched item]
            (matchDiags item))).flatten) := by
  simp [generate_m3u_playlist, genBody_eq, processItem_fst, processItem_snd]

/-- C4 counterexample: a candidate whose tag title and tag artist are both
empty matches an expected track even though the filename-based predicate
is false for it, so the filename branch is not the only path to a match. -/
theorem C4_counterexample :
    (get_file_metadata ⟨"foo", "foo.mp3", "/out/foo.mp3", some ⟨"", "", ""⟩⟩).title = "" ∧
    (get_file_metadata ⟨"foo", "foo.mp3", "/out/foo.mp3", some ⟨"", "", ""⟩⟩).artist = "" ∧
    filename_match ⟨"Yesterday", "The Beatles", "Help!"⟩
      ⟨"foo", "foo.mp3", "/out/foo.mp3", some ⟨"", "", ""⟩⟩ = false ∧
    matchesItem ⟨"Yesterday", "The Beatles", "Help!"⟩
      ⟨"foo", "foo.mp3", "/out/foo.mp3", some ⟨"", "", ""⟩⟩ = true := by
  decide

/-- C4 (amended): for every candidate whose tag title and tag artist are
both empty, the tag-based branch is vacuously satisfied — the empty string
is a substring of everything — so the candidate matches every expected
track regardless of the filename-based predicate. -/
theorem emptyTags_match_all (item : PlaylistItem) (f : DFile)
    (ht : (get_file_metadata f).title = "")
    (ha : (get_file_metadata f).artist = "") :
    matchesItem item f = true := by
  simp [matchesItem, title_match_of_empty item (get_file_metadata f) ht,
    artist_match_of_empty item (get_file_metadata f) ha]

theorem emptyTags_match_all_witness :
    matchesItem ⟨"Song", "Artist", "Album"⟩ ⟨"x", "x.mp3", "/x.mp3", none⟩ = true :=
  emptyTags_match_all ⟨"Song", "Artist", "Album"⟩ ⟨"x", "x.mp3", "/x.mp3", none⟩ rfl rfl

/-- C5 counterexample: with downloading skipped and the directory absent,
the raised error is a ValueError — the code has no DirectoryNotFoundError
anywhere. -/
theorem C5_counterexample :
    process_playlist false [] [] false =
      Except.error (PyError.valueError "Playlist directory not found") ∧
    PyError.className (PyError.valueError "Playlist directory not found") ≠
      "DirectoryNotFoundError" := by
  exact ⟨rfl, by decide⟩

/-- C5 (amended): when processing is invoked with downloading skipped and
the expected per-playlist directory does not exist, the run fails by
raising a ValueError that aborts that playlist's processing — no playlist
document is produced — and surfaces as the run's failure. -/
theorem process_playlist_skip_missing (dirFiles : List DFile)
    (items : List PlaylistItem) :
    process_playlist false dirFiles items false =
      Except.error (PyError.valueError "Playlist directory not found") ∧
    ∀ doc, process_playlist false dirFiles items false ≠ Except.ok doc := by
  refine ⟨rfl, ?_⟩
  intro doc h
  simp [process_playlist] at h

theorem process_playlist_skip_missing_witness :
    process_playlist false [] [] false =
      Except.error (PyError.valueError "Playlist directory not found") :=
  (process_playlist_skip_missing [] []).1

/-- C6 counterexample: a matched pair whose tag title is empty and so
differs case-insensitively from the expected name, yet no mismatch
diagnostic at all is emitted — the code also requires the tag value to be
non-empty. -/
theorem C6_counterexample :
    findMatch itemC6 (candidates [fC6]) = some fC6 ∧
    pyLower (get_file_metadata fC6).title ≠ pyLower itemC6.track_name ∧
    (generate_m3u_playlist [itemC6] [fC6]).2 = [] := by
  decide

/-- C6 (amended): for every matched pair, a title-mismatch diagnostic is
emitted exactly when the tag title is non-empty and differs
case-insensitively from the expected name, and likewise for artist; the
diagnostics are informational only — the emitted entry is still exactly
the entry built from the display values. -/
theorem matchDiags_spec (item : PlaylistItem) (files : List DFile) (f : DFile)
    (h : findMatch item files = some f) :
    (Diag.titleMismatch item.track_name (get_file_metadata f).title ∈
        matchDiags item f ↔
      ((get_file_metadata f).title ≠ "" ∧
        pyLower (get_file_metadata f).title ≠ pyLower item.track_name)) ∧
    (Diag.artistMismatch item.artist (get_file_metadata f).artist ∈
        matchDiags item f ↔
      ((get_file_metadata f).artist ≠ "" ∧
        pyLower (get_file_metadata f).artist ≠ pyLower item.artist)) ∧
    processItem files item = (entryLines item f, matchDiags item f) := by
  refine ⟨?_, ?_, ?_⟩
  · simp only [matchDiags]
    split_ifs with h1 h2 h2 <;> simp [h1, h2]
  · simp only [matchDiags]
    split_ifs with h1 h2 h2 <;> simp [h1, h2]
  · simp [processItem, h]

theorem matchDiags_spec_witness :
    Diag.titleMismatch "Yesterday" "Yesterday (Remastered)" ∈ matchDiags itemY fY ∧
    processItem [fY] itemY = (entryLines itemY fY, matchDiags itemY fY) := by
  have h := matchDiags_spec itemY [fY] fY (by decide)
  exact ⟨h.1.mpr (by decide), h.2.2⟩

/-- C7: a tag-read failure is caught and converted into all-empty metadata
for that candidate only — the candidate behaves exactly as if its tags had
been read as three empty strings — and the failure never propagates: the
metadata reader and the scan are total functions on such candidates. -/
theorem get_file_metadata_failure (f : DFile) (h : f.tags = none) :
    get_file_metadata f = { title := "", artist := "", album := "" } ∧
    ∀ item : PlaylistItem,
      matchesItem item f =
        matchesItem item
          { f with tags := some { title := "", artist := "", album := "" } } := by
  constructor
  · simp [get_file_metadata, h]
  · intro item
    simp [matchesItem, get_file_metadata, h, filename_match]

theorem get_file_metadata_failure_witness :
    get_file_metadata ⟨"s2", "s2.mp3", "/s2.mp3", none⟩ =
      { title := "", artist := "", album := "" } :=
  (get_file_metadata_failure ⟨"s2", "s2.mp3", "/s2.mp3", none⟩ rfl).1

/-- C8: the emitted entry is built from the display values, and the
display title equals the tag title when that tag is non-empty and the
expected track name verbatim when the tag title is empty; symmetrically
for the artist. -/
theorem display_fallback (item : PlaylistItem) (f : DFile) :
    ((get_file_metadata f).title ≠ "" →
      displayTitle item f = (get_file_metadata f).title) ∧
    ((get_file_metadata f).title = "" →
      displayTitle item f = item.track_name) ∧
    ((get_file_metadata f).artist ≠ "" →
      displayArtist item f = (get_file_metadata f).artist) ∧
    ((get_file_metadata f).artist = "" →
      displayArtist item f = item.artist) ∧
    entryLines item f =
      ["#EXTINF:-1," ++ displayArtist item f ++ " - " ++ displayTitle item f,
       f.abspath] := by
  refine ⟨?_, ?_, ?_, ?_, rfl⟩ <;>
    intro h <;> simp [displayTitle, displayArtist, pyOr, h]

theorem display_fallback_witness :
    displayTitle item1 f1 = "TagTitle" ∧ displayArtist item1 f1 = "CsvArt" := by
  have h := display_fallback item1 f1
  exact ⟨h.1 (by decide), h.2.2.2.1 rfl⟩

/-- C9: matching is non-exclusive — when two expected tracks both satisfy
the match predicate on the same single downloaded file, the document
contains two separate entries, each ending in the same absolute path. -/
theorem nonexclusive_match (t1 t2 : PlaylistItem) (f : DFile)
    (hmp3 : endsWithStr f.name ".mp3" = true)
    (h1 : matchesItem t1 f = true) (h2 : matchesItem t2 f = true) :
    (generate_m3u_playlist [t1, t2] [f]).1 =
      ["#EXTM3U",
       "#EXTINF:-1," ++ displayArtist t1 f ++ " - " ++ displayTitle t1 f,
       f.abspath,
       "#EXTINF:-1," ++ displayArtist t2 f ++ " - " ++ displayTitle t2 f,
       f.abspath] := by
  simp [generate_m3u_playlist, candidates, hmp3, genBody, processItem,
    findMatch, h1, h2, entryLines]

theorem nonexclusive_match_witness :
    (generate_m3u_playlist [tN1, tN2] [fN]).1 =
      ["#EXTM3U",
       "#EXTINF:-1," ++ displayArtist tN1 fN ++ " - " ++ displayTitle tN1 fN,
       fN.abspath,
       "#EXTINF:-1," ++ displayArtist tN2 fN ++ " - " ++ displayTitle tN2 fN,
       fN.abspath] :=
  nonexclusive_match tN1 tN2 fN (by decide) (by decide) (by decide)

/-- C10: only files whose name ends in .mp3 are enumerated as candidates —
a file with any other name is never a candidate, and inserting such a file
anywhere in the directory listing changes neither the candidate list nor
the generated document, regardless of its tags or stem. -/
theorem mp3_only (items : List PlaylistItem) (l1 l2 : List DFile) (f : DFile)
    (hext : endsWithStr f.name ".mp3" = false) :
    (∀ l : List DFile, f ∉ candidates l) ∧
    candidates (l1 ++ f :: l2) = candidates (l1 ++ l2) ∧
    generate_m3u_playlist items (l1 ++ f :: l2) =
      generate_m3u_playlist items (l1 ++ l2) := by
  have hc : candidates (l1 ++ f :: l2) = candidates (l1 ++ l2) := by
    simp [candidates, List.filter_append, List.filter_cons, hext]
  refine ⟨?_, hc, by simp [generate_m3u_playlist, hc]⟩
  intro l hl
  have := (List.mem_filter.mp hl).2
  simp [hext] at this

theorem mp3_only_witness :
    fFlac ∉ candidates [fFlac] ∧
    generate_m3u_playlist [itemY] [fFlac] = generate_m3u_playlist [itemY] [] := by
  have h := mp3_only [itemY] [] [] fFlac (by decide)
  exact ⟨h.1 [fFlac], h.2.2⟩
